import Mathlib

/-!
Shallow embedding of the subscription-lifecycle core of the `zero2prod`
repository: domain validation (`src/domain/subscriber_name.rs`), the
transactional subscribe path (`src/routes/subscriptions.rs`), token
redemption (`src/routes/subscriptions_confirm.rs`) and the newsletter
broadcast (`src/routes/newsletters.rs`).

Modelling conventions:
- Machine `Uuid` values are `Nat`; timestamps (`Utc::now()`) are `Nat`
  inputs.
- The two Postgres tables are lists of rows; the schema constraints the
  code relies on (`subscriptions.email` UNIQUE, `subscriptions.id` and
  `subscription_tokens.subscription_token` PRIMARY KEY) are enforced by
  the insert operations, which fail on a violation exactly as the SQL
  inserts do.
- Fallible I/O (pool acquisition, each SQL statement, the commit, the
  outbound email POST) is driven by explicit Boolean failure flags; a
  SQL failure leaves the state of the statement's target unchanged, and
  a transaction that is not committed leaves the database unchanged
  (sqlx rolls an uncommitted `Transaction` back on drop).
- `unicode_segmentation`'s `graphemes(true).count()` is an external
  library function; it is abstracted as an explicit parameter
  `graphemeCount : String → Nat`, so every theorem below holds for any
  grapheme counter.
-/

namespace Z2P

/-- The `status` column of `subscriptions`: the code only ever writes
the literals `'pending_confirmation'` (insert) and `'confirmed'`
(update). -/
inductive SubStatus where
  | pending_confirmation
  | confirmed
  deriving DecidableEq, Repr

/-- A row of the `subscriptions` table: `(id, email, name, subscribed_at, status)`. -/
structure SubscriberRow where
  id : Nat
  email : String
  name : String
  subscribedAt : Nat
  status : SubStatus
  deriving DecidableEq, Repr

/-- A row of the `subscription_tokens` table:
`(subscription_token, subscriber_id)`. -/
structure TokenRow where
  subscription_token : String
  subscriber_id : Nat
  deriving DecidableEq, Repr

/-- The persistent state: the two tables owned by the subscription store. -/
structure DbState where
  subscriptions : List SubscriberRow
  subscription_tokens : List TokenRow
  deriving DecidableEq, Repr

/-- The forbidden character set of `SubscriberName::parse`
(`src/domain/subscriber_name.rs`): `/ ( ) " < > \ { }` — the double
quote, backslash and braces are written via their code points. -/
def forbiddenCharacters : List Char :=
  ['/', '(', ')', Char.ofNat 34, '<', '>', Char.ofNat 92, Char.ofNat 123, Char.ofNat 125]

/-- `SubscriberName`: newtype over the raw string (`src/domain/subscriber_name.rs`). -/
structure SubscriberName where
  val : String
  deriving DecidableEq, Repr

/-- Rust's `char::is_whitespace`: the Unicode `White_Space` property,
i.e. code points U+0009..U+000D, U+0020, U+0085, U+00A0, U+1680,
U+2000..U+200A, U+2028, U+2029, U+202F, U+205F and U+3000. -/
def isRustWhitespace (c : Char) : Bool :=
  (0x9 ≤ c.toNat && c.toNat ≤ 0xD) || c.toNat = 0x20 || c.toNat = 0x85 ||
    c.toNat = 0xA0 || c.toNat = 0x1680 ||
    (0x2000 ≤ c.toNat && c.toNat ≤ 0x200A) || c.toNat = 0x2028 ||
    c.toNat = 0x2029 || c.toNat = 0x202F || c.toNat = 0x205F || c.toNat = 0x3000

/-- `s.trim().is_empty()` of the source, charwise: `str::trim` removes
leading and trailing Unicode `White_Space`, so the trimmed string is
empty exactly when every character of `s` has the `White_Space`
property (vacuously for the empty string). -/
def isWhitespaceOnly (s : String) : Bool :=
  s.data.all (fun c => isRustWhitespace c)

/-- `SubscriberName::parse`. Checks, in order: trimmed emptiness, the
grapheme-cluster count bound (the counter is the abstracted library
function `graphemeCount`), and presence of any forbidden character
(`s.contains(&forbidden_characters)`). The `Err` payloads keep the
code's message prefixes (the Rust `{:?}` debug listing of the character
array is elided). -/
def SubscriberName.parse (graphemeCount : String → Nat) (s : String) :
    Except String SubscriberName :=
  if isWhitespaceOnly s then
    .error (s ++ " is empty or whitespace")
  else if graphemeCount s > 256 then
    .error (s ++ " is longer than 256 characters")
  else if s.data.any (fun c => forbiddenCharacters.contains c) then
    .error (s ++ " contains forbidden characters")
  else
    .ok ⟨s⟩

/-- `SubscriberName::as_ref`: exposes the inner string. -/
def SubscriberName.as_ref (n : SubscriberName) : String := n.val

/-- `SubscriberEmail`: newtype over the raw string. -/
structure SubscriberEmail where
  val : String
  deriving DecidableEq, Repr

/-- Modelled from the spec: `src/domain/subscriber_email.rs` is not
under `src/` (only its users are). Per spec §4.1 a `SubscriberEmail`
"passes a standards-based email-address grammar check"; §8 requires
that strings without an `@` and a domain segment fail and that
well-formed addresses such as `ursula_le_guin@gmail.com` succeed. The
check: exactly one `@`, a non-empty local part, and a non-empty domain
containing a dot. -/
def emailIsValid (s : String) : Bool :=
  match s.data.splitOn '@' with
  | [localPart, domain] =>
      !localPart.isEmpty && !domain.isEmpty && domain.contains '.'
  | _ => false

/-- Modelled from the spec: `SubscriberEmail::parse` (source file not
under `src/`) — succeeds exactly on strings accepted by the grammar
check, wrapping the original string. -/
def SubscriberEmail.parse (s : String) : Except String SubscriberEmail :=
  if emailIsValid s then .ok ⟨s⟩
  else .error (s ++ " is not a valid subscriber email")

/-- `SubscriberEmail::as_ref` analogue. -/
def SubscriberEmail.as_ref (e : SubscriberEmail) : String := e.val

/-- `NewSubscriber` (`src/domain/new_subscriber.rs`): validated name and email. -/
structure NewSubscriber where
  name : SubscriberName
  email : SubscriberEmail
  deriving DecidableEq, Repr

/-- `TryFrom<FormData> for NewSubscriber` (`src/routes/subscriptions.rs`):
parses the name first, then the email, short-circuiting on the first
error. -/
def NewSubscriber.try_from (graphemeCount : String → Nat)
    (name email : String) : Except String NewSubscriber := do
  let n ← SubscriberName.parse graphemeCount name
  let e ← SubscriberEmail.parse email
  return ⟨n, e⟩

/-- `insert_subscriber` (`src/routes/subscriptions.rs`): one INSERT into
`subscriptions` with status `'pending_confirmation'`, executed inside
the open transaction `tx`. `subscriber_id` stands for the freshly drawn
`Uuid::new_v4()`. The insert fails on a connectivity failure
(`dbFails`) or on a schema-constraint violation (duplicate `id` primary
key or duplicate `email` unique key). -/
def insert_subscriber (new_subscriber : NewSubscriber) (tx : DbState)
    (subscriber_id : Nat) (now : Nat) (dbFails : Bool) : Except Unit DbState :=
  if dbFails then .error ()
  else if tx.subscriptions.any (fun r => r.id = subscriber_id) then .error ()
  else if tx.subscriptions.any (fun r => r.email = new_subscriber.email.as_ref) then .error ()
  else .ok { tx with
    subscriptions := tx.subscriptions ++
      [⟨subscriber_id, new_subscriber.email.as_ref, new_subscriber.name.as_ref,
        now, .pending_confirmation⟩] }

/-- `store_token` (`src/routes/subscriptions.rs`): one INSERT into
`subscription_tokens`, inside the same transaction. Fails on a
connectivity failure or on a duplicate token primary key. -/
def store_token (subscriber_id : Nat) (subscription_token : String)
    (tx : DbState) (dbFails : Bool) : Except Unit DbState :=
  if dbFails then .error ()
  else if tx.subscription_tokens.any (fun e => e.subscription_token = subscription_token) then
    .error ()
  else .ok { tx with
    subscription_tokens := tx.subscription_tokens ++ [⟨subscription_token, subscriber_id⟩] }

/-- `get_subscriber_id_from_token` (`src/routes/subscriptions_confirm.rs`):
`SELECT subscriber_id FROM subscription_tokens WHERE subscription_token = $1`
with `fetch_optional` — the first matching row, if any. -/
def get_subscriber_id_from_token (subscription_token : String) (db : DbState) :
    Option Nat :=
  (db.subscription_tokens.find? (fun e => e.subscription_token = subscription_token)).map
    (fun e => e.subscriber_id)

/-- `confirm_subscriber` (`src/routes/subscriptions_confirm.rs`):
`UPDATE subscriptions SET status = 'confirmed' WHERE id = $1`. Every
matching row (zero or more) gets status `confirmed`; no other column
and no other row changes. -/
def confirm_subscriber (subscriber_id : Nat) (db : DbState) : DbState :=
  { db with
    subscriptions := db.subscriptions.map (fun r =>
      if r.id = subscriber_id then { r with status := .confirmed } else r) }

/-- One call to `EmailClient::send_email(recipient, subject, html, text)`
as observed at the call site (the transport itself is an external
collaborator). -/
structure SentEmail where
  recipient : String
  subject : String
  html_body : String
  text_body : String
  deriving DecidableEq, Repr

/-- The confirmation link built by `send_confirmation_email`
(`src/routes/subscriptions.rs`):
`format!("...", base_url, subscription_token)` with the literal text
between the two holes. -/
def confirmationLink (base_url subscription_token : String) : String :=
  base_url ++ "/subscriptions/confirm?subscription_token=" ++ subscription_token

/-- The plain-text body of the confirmation email. -/
def confirmationPlainBody (link : String) : String :=
  "Welcome to our newsletter!\nVisit " ++ link ++ " to confirm your subscription."

/-- The HTML body of the confirmation email (the Rust string
continuation `\`-newline strips the newline and leading whitespace of
the second line). -/
def confirmationHtmlBody (link : String) : String :=
  "Welcome to our newsletter!<br />/Click <a href=\"" ++ link ++
    "\">here</a> to confirm your subscription."

/-- `send_confirmation_email` (`src/routes/subscriptions.rs`): the one
`send_email` call it makes, with subject `"Welcome!"` and both bodies
embedding the confirmation link. -/
def send_confirmation_email (new_subscriber : NewSubscriber)
    (base_url subscription_token : String) : SentEmail :=
  ⟨new_subscriber.email.as_ref, "Welcome!",
    confirmationHtmlBody (confirmationLink base_url subscription_token),
    confirmationPlainBody (confirmationLink base_url subscription_token)⟩

/-- Which step of `subscribe` produced the `UnexpectedError`; each stage
carries, via `contextOf`, the `.context(...)` message the code attaches
there. -/
inductive FailStage where
  | pool
  | insert
  | storeToken
  | commit
  | sendEmail
  deriving DecidableEq, Repr

/-- The `.context(...)` message `subscribe` attaches at each fallible step. -/
def contextOf : FailStage → String
  | .pool => "Failed to acquire a Postgres connection from the pool"
  | .insert => "Failed to insert new subscriber in the database"
  | .storeToken => "Failed to store the confirmation token for a new subscriber"
  | .commit => "Failed to commit SQL transaction to store a new subscriber"
  | .sendEmail => "Failed to send a confirmation email"

/-- `SubscribeError` (`src/routes/subscriptions.rs`), plus the success
case of the handler (`HttpResponse::Ok`). -/
inductive SubscribeOutcome where
  | ok
  | validationError (msg : String)
  | unexpectedError (stage : FailStage)
  deriving DecidableEq, Repr

/-- Which of `subscribe`'s fallible I/O operations fail in a given run. -/
structure SubscribeFaults where
  poolFails : Bool
  insertFails : Bool
  storeTokenFails : Bool
  commitFails : Bool
  sendEmailFails : Bool
  deriving DecidableEq, Repr

/-- The observable result of one `subscribe` call: the handler outcome,
the database state afterwards, and every `send_email` call attempted
(successful or not). -/
structure SubscribeRun where
  outcome : SubscribeOutcome
  db : DbState
  sent : List SentEmail
  deriving DecidableEq, Repr

/-- `subscribe` (`src/routes/subscriptions.rs`): validate the form into
a `NewSubscriber`; begin a transaction; `insert_subscriber`; generate a
token (here the input `subscription_token`, standing for
`generate_subscriptions_token()`); `store_token`; commit; then — only
after the commit — `send_confirmation_email`. Any failure up to and
including the commit leaves the database unchanged (the transaction is
dropped uncommitted); a send failure after the commit leaves the
committed state in place. -/
def subscribe (graphemeCount : String → Nat) (db : DbState)
    (email name : String) (subscriber_id : Nat) (subscription_token : String)
    (now : Nat) (base_url : String) (o : SubscribeFaults) : SubscribeRun :=
  match NewSubscriber.try_from graphemeCount name email with
  | .error e => ⟨.validationError e, db, []⟩
  | .ok new_subscriber =>
    if o.poolFails then ⟨.unexpectedError .pool, db, []⟩
    else match insert_subscriber new_subscriber db subscriber_id now o.insertFails with
    | .error _ => ⟨.unexpectedError .insert, db, []⟩
    | .ok tx1 =>
      match store_token subscriber_id subscription_token tx1 o.storeTokenFails with
      | .error _ => ⟨.unexpectedError .storeToken, db, []⟩
      | .ok tx2 =>
        if o.commitFails then ⟨.unexpectedError .commit, db, []⟩
        else
          let mail := send_confirmation_email new_subscriber base_url subscription_token
          if o.sendEmailFails then ⟨.unexpectedError .sendEmail, tx2, [mail]⟩
          else ⟨.ok, tx2, [mail]⟩

/-- `ConfirmError` (`src/routes/subscriptions_confirm.rs`), plus the
handler's success case. `unexpectedError` carries the `.context(...)`
message. -/
inductive ConfirmOutcome where
  | ok
  | unknownToken
  | unexpectedError (context : String)
  deriving DecidableEq, Repr

/-- `confirm` (`src/routes/subscriptions_confirm.rs`): look the token up
(failure of the SELECT → `UnexpectedError`; no row → `UnknownToken`),
then `confirm_subscriber` (failure of the UPDATE → `UnexpectedError`,
with the single failed statement mutating nothing). -/
def confirm (db : DbState) (subscription_token : String)
    (lookupFails updateFails : Bool) : ConfirmOutcome × DbState :=
  if lookupFails then
    (.unexpectedError "Failed to get subscriber id from authorization token", db)
  else match get_subscriber_id_from_token subscription_token db with
  | none => (.unknownToken, db)
  | some subscriber_id =>
    if updateFails then
      (.unexpectedError "Failed to update the subscriber status to confirmed", db)
    else (.ok, confirm_subscriber subscriber_id db)

/-- `PublishError` (`src/routes/newsletters.rs`), plus the handler's
success case. `unexpectedError` carries the `with_context` message. -/
inductive PublishOutcome where
  | ok
  | unexpectedError (context : String)
  deriving DecidableEq, Repr

/-- `get_confirmed_subscribers` (`src/routes/newsletters.rs`): SELECT the
`email` column of every row with `status = 'confirmed'` and re-parse
each through `SubscriberEmail::parse`, keeping per-row results. -/
def get_confirmed_subscribers (db : DbState) : List (Except String SubscriberEmail) :=
  ((db.subscriptions.filter (fun r => r.status = .confirmed)).map
    (fun r => r.email)).map SubscriberEmail.parse

/-- The `for subscriber in subscribers` loop of `publish_newsletter`:
an `Ok` subscriber gets one `send_email` call — on dispatch failure the
loop returns the wrapped error at once, attempting nothing further; an
`Err` subscriber is logged and skipped. `dispatchOk` says which
recipients the transport accepts; `sent` accumulates the attempted
calls. -/
def publishLoop (dispatchOk : String → Bool) (title html text : String) :
    List (Except String SubscriberEmail) → List SentEmail →
      PublishOutcome × List SentEmail
  | [], sent => (.ok, sent)
  | .ok subscriber :: rest, sent =>
    let attempt : SentEmail := ⟨subscriber.as_ref, title, html, text⟩
    if dispatchOk subscriber.as_ref then
      publishLoop dispatchOk title html text rest (sent ++ [attempt])
    else
      (.unexpectedError ("Failed to send newsletter issue to " ++ subscriber.as_ref),
        sent ++ [attempt])
  | .error _ :: rest, sent => publishLoop dispatchOk title html text rest sent

/-- `publish_newsletter` (`src/routes/newsletters.rs`): fetch the
confirmed subscribers (`queryFails` models a failing SELECT), then run
the dispatch loop. Returns the outcome and every `send_email` call
attempted. -/
def publish_newsletter (db : DbState) (title html text : String)
    (queryFails : Bool) (dispatchOk : String → Bool) :
    PublishOutcome × List SentEmail :=
  if queryFails then
    (.unexpectedError "failed to get confirmed subscribers", [])
  else publishLoop dispatchOk title html text (get_confirmed_subscribers db) []

/-- `SubscribeError::status_code` (`src/routes/subscriptions.rs`):
`ValidationError → BAD_REQUEST`, `UnexpectedError → INTERNAL_SERVER_ERROR`;
the handler's success is `HttpResponse::Ok`. -/
def subscribeHttpStatus : SubscribeOutcome → Nat
  | .ok => 200
  | .validationError _ => 400
  | .unexpectedError _ => 500

/-- Modelled from the spec: the `ResponseError`/status mapping for
`ConfirmError` is not under `src/` (`subscriptions_confirm.rs` defines
the enum only). Spec §6: unknown token → 401, unexpected/persistence
failure → 500, success → 200 (the success arm is the handler's
`HttpResponse::Ok`, which is in the source). -/
def confirmHttpStatus : ConfirmOutcome → Nat
  | .ok => 200
  | .unknownToken => 401
  | .unexpectedError _ => 500

/-- One step of the core over the shared database: a `subscribe` call, a
`confirm` call, or a `publish_newsletter` call (which never writes). All
parameters — inputs, fault flags, fresh id/token — are arbitrary. -/
inductive Step : DbState → DbState → Prop
  | subscribe (graphemeCount : String → Nat) (db : DbState) (email name : String)
      (subscriber_id : Nat) (subscription_token : String) (now : Nat)
      (base_url : String) (o : SubscribeFaults) :
      Step db (Z2P.subscribe graphemeCount db email name subscriber_id
        subscription_token now base_url o).db
  | confirm (db : DbState) (subscription_token : String)
      (lookupFails updateFails : Bool) :
      Step db (Z2P.confirm db subscription_token lookupFails updateFails).2
  | publish_newsletter (db : DbState) : Step db db

/-- Helper: a token matching no row of `subscription_tokens` is not found. -/
theorem lookup_eq_none_of_no_match (db : DbState) (tok : String)
    (h : ∀ e ∈ db.subscription_tokens, e.subscription_token ≠ tok) :
    get_subscriber_id_from_token tok db = none := by
  unfold get_subscriber_id_from_token
  have hf : db.subscription_tokens.find? (fun e => e.subscription_token = tok) = none :=
    List.find?_eq_none.mpr (fun x hx => by simp [h x hx])
  simp [hf]

/-- C8: `ParseName` succeeds exactly on valid names and round-trips: a
string that is not whitespace-only (hence non-empty after trimming),
counts at most 256 grapheme clusters and contains no forbidden
character parses to a `SubscriberName` whose underlying value is the
original string; a string that is whitespace-only (this covers empty),
longer than 256 graphemes, or containing a forbidden character fails to
parse. Stated for every grapheme counter. -/
theorem parse_name_correct (graphemeCount : String → Nat) (s : String) :
    (isWhitespaceOnly s = false → graphemeCount s ≤ 256 →
      s.data.any (fun c => forbiddenCharacters.contains c) = false →
      ∃ n, SubscriberName.parse graphemeCount s = .ok n ∧ n.as_ref = s)
    ∧ ((isWhitespaceOnly s = true ∨ 256 < graphemeCount s ∨
        s.data.any (fun c => forbiddenCharacters.contains c) = true) →
      ∃ msg, SubscriberName.parse graphemeCount s = .error msg) := by
  constructor
  · intro h1 h2 h3
    refine ⟨⟨s⟩, ?_, rfl⟩
    have h3' : ∀ x ∈ s.data, x ∉ forbiddenCharacters := by simpa using h3
    unfold SubscriberName.parse
    simp [h1, Nat.not_lt.mpr h2]
    exact h3'
  · intro h
    unfold SubscriberName.parse
    rcases h with h | h | h
    · exact ⟨s ++ " is empty or whitespace", by simp [h]⟩
    · by_cases h1 : isWhitespaceOnly s
      · exact ⟨s ++ " is empty or whitespace", by simp [h1]⟩
      · exact ⟨s ++ " is longer than 256 characters", by simp [h1, h]⟩
    · have h' : ∃ x ∈ s.data, x ∈ forbiddenCharacters := by simpa using h
      by_cases h1 : isWhitespaceOnly s
      · exact ⟨s ++ " is empty or whitespace", by simp [h1]⟩
      · by_cases h2 : graphemeCount s > 256
        · exact ⟨s ++ " is longer than 256 characters", by simp [h1, h2]⟩
        · exact ⟨s ++ " contains forbidden characters", by simp [h1, h2, h']⟩

/-- Witness for C8: a valid name round-trips; the empty name fails. -/
theorem parse_name_correct_witness :
    (isWhitespaceOnly "Ursula Le Guin" = false ∧ String.length "Ursula Le Guin" ≤ 256 ∧
      "Ursula Le Guin".data.any (fun c => forbiddenCharacters.contains c) = false ∧
      ∃ n, SubscriberName.parse String.length "Ursula Le Guin" = .ok n ∧
        n.as_ref = "Ursula Le Guin")
    ∧ (isWhitespaceOnly "" = true ∧
      ∃ msg, SubscriberName.parse String.length "" = .error msg) :=
  ⟨⟨by decide, by decide, by decide,
    (parse_name_correct String.length "Ursula Le Guin").1 (by decide) (by decide) (by decide)⟩,
   ⟨by decide, (parse_name_correct String.length "").2 (Or.inl (by decide))⟩⟩

/-- C4: a token matching no stored token record makes `confirm` fail
with `UnknownToken`, and the database — in particular every
subscriber's status — is left exactly as it was. -/
theorem confirm_unknown_token_rejected (db : DbState) (tok : String)
    (h : ∀ e ∈ db.subscription_tokens, e.subscription_token ≠ tok) :
    confirm db tok false false = (.unknownToken, db) := by
  unfold confirm
  simp [lookup_eq_none_of_no_match db tok h]

/-- Witness for C4: `Confirm("not-a-real-token")` against a store with
one unrelated token. -/
theorem confirm_unknown_token_rejected_witness :
    (∀ e ∈ (⟨[⟨1, "u@g.com", "u", 0, .pending_confirmation⟩], [⟨"sometoken", 1⟩]⟩ :
        DbState).subscription_tokens, e.subscription_token ≠ "not-a-real-token")
    ∧ confirm ⟨[⟨1, "u@g.com", "u", 0, .pending_confirmation⟩], [⟨"sometoken", 1⟩]⟩
        "not-a-real-token" false false =
      (.unknownToken, ⟨[⟨1, "u@g.com", "u", 0, .pending_confirmation⟩], [⟨"sometoken", 1⟩]⟩) :=
  ⟨by decide, confirm_unknown_token_rejected _ _ (by decide)⟩

/-- C5: the boundary error-to-status mapping: a `confirm` call that
fails on an unknown token produces HTTP 401; validation failure maps to
400, unexpected/persistence failure to 500, success to 200 (the
`ConfirmError` arm values are modelled from the spec, see
`confirmHttpStatus`). -/
theorem http_status_mapping :
    (∀ (db : DbState) (tok : String),
       (∀ e ∈ db.subscription_tokens, e.subscription_token ≠ tok) →
       confirmHttpStatus (confirm db tok false false).1 = 401)
    ∧ (∀ msg, subscribeHttpStatus (.validationError msg) = 400)
    ∧ (∀ stage, subscribeHttpStatus (.unexpectedError stage) = 500)
    ∧ (∀ ctx, confirmHttpStatus (.unexpectedError ctx) = 500)
    ∧ subscribeHttpStatus .ok = 200 ∧ confirmHttpStatus .ok = 200 := by
  refine ⟨?_, fun _ => rfl, fun _ => rfl, fun _ => rfl, rfl, rfl⟩
  intro db tok h
  unfold confirm
  simp [lookup_eq_none_of_no_match db tok h, confirmHttpStatus]

/-- Witness for C5: the unknown-token arm applied at a concrete store. -/
theorem http_status_mapping_witness :
    (∀ e ∈ (⟨[], []⟩ : DbState).subscription_tokens, e.subscription_token ≠ "t")
    ∧ confirmHttpStatus (confirm ⟨[], []⟩ "t" false false).1 = 401 :=
  ⟨by simp, http_status_mapping.1 ⟨[], []⟩ "t" (by simp)⟩

/-- Helper: the UPDATE of `confirm_subscriber` touches only the
`subscriptions` table. -/
theorem confirm_subscriber_tokens_eq (sid : Nat) (db : DbState) :
    (confirm_subscriber sid db).subscription_tokens = db.subscription_tokens := rfl

/-- Helper: re-running `confirm_subscriber` on the same id changes nothing. -/
theorem confirm_subscriber_idem (sid : Nat) (db : DbState) :
    confirm_subscriber sid (confirm_subscriber sid db) = confirm_subscriber sid db := by
  unfold confirm_subscriber
  simp only [List.map_map]
  congr 1
  apply List.map_congr_left
  intro r _
  by_cases h : r.id = sid <;> simp [h]

/-- C3: `Confirm` is idempotent for a valid token: with a token stored
for subscriber `sid` and a row for `sid` present, the first call
succeeds and leaves every `sid` row (in particular the existing one)
with status `confirmed`; the second call also succeeds and changes the
database not at all. -/
theorem confirm_idempotent (db : DbState) (tok : String) (sid : Nat)
    (hlook : get_subscriber_id_from_token tok db = some sid)
    (hrow : ∃ r ∈ db.subscriptions, r.id = sid) :
    (confirm db tok false false).1 = .ok ∧
    (confirm (confirm db tok false false).2 tok false false).1 = .ok ∧
    (∀ r ∈ (confirm db tok false false).2.subscriptions,
      r.id = sid → r.status = .confirmed) ∧
    (∃ r ∈ (confirm db tok false false).2.subscriptions,
      r.id = sid ∧ r.status = .confirmed) ∧
    (confirm (confirm db tok false false).2 tok false false).2 =
      (confirm db tok false false).2 := by
  have h1 : confirm db tok false false = (.ok, confirm_subscriber sid db) := by
    unfold confirm
    simp [hlook]
  have hlook2 : get_subscriber_id_from_token tok (confirm_subscriber sid db) = some sid := by
    unfold get_subscriber_id_from_token at hlook ⊢
    rw [confirm_subscriber_tokens_eq]
    exact hlook
  have h2 : confirm (confirm_subscriber sid db) tok false false =
      (.ok, confirm_subscriber sid (confirm_subscriber sid db)) := by
    unfold confirm
    simp [hlook2]
  refine ⟨by rw [h1], by rw [h1]; simp only; rw [h2], ?_, ?_, ?_⟩
  · rw [h1]
    intro r hr hid
    unfold confirm_subscriber at hr
    simp only [List.mem_map] at hr
    obtain ⟨a, _, rfl⟩ := hr
    by_cases h : a.id = sid
    · simp [h]
    · exfalso
      rw [if_neg h] at hid
      exact h hid
  · rw [h1]
    obtain ⟨a, ha, haid⟩ := hrow
    refine ⟨{ a with status := .confirmed }, ?_, haid, rfl⟩
    unfold confirm_subscriber
    simp only [List.mem_map]
    exact ⟨a, ha, by simp [haid]⟩
  · rw [h1]
    simp only
    rw [h2]
    simp only
    exact confirm_subscriber_idem sid db

/-- Witness for C3: one pending subscriber and its stored token. -/
theorem confirm_idempotent_witness :
    (get_subscriber_id_from_token "tok25"
      ⟨[⟨7, "u@g.com", "le guin", 0, .pending_confirmation⟩], [⟨"tok25", 7⟩]⟩ = some 7)
    ∧ (∃ r ∈ (⟨[⟨7, "u@g.com", "le guin", 0, .pending_confirmation⟩], [⟨"tok25", 7⟩]⟩ :
        DbState).subscriptions, r.id = 7)
    ∧ ((confirm ⟨[⟨7, "u@g.com", "le guin", 0, .pending_confirmation⟩], [⟨"tok25", 7⟩]⟩
        "tok25" false false).1 = .ok ∧
      (confirm (confirm ⟨[⟨7, "u@g.com", "le guin", 0, .pending_confirmation⟩],
          [⟨"tok25", 7⟩]⟩ "tok25" false false).2 "tok25" false false).1 = .ok ∧
      (∀ r ∈ (confirm ⟨[⟨7, "u@g.com", "le guin", 0, .pending_confirmation⟩],
          [⟨"tok25", 7⟩]⟩ "tok25" false false).2.subscriptions,
        r.id = 7 → r.status = .confirmed) ∧
      (∃ r ∈ (confirm ⟨[⟨7, "u@g.com", "le guin", 0, .pending_confirmation⟩],
          [⟨"tok25", 7⟩]⟩ "tok25" false false).2.subscriptions,
        r.id = 7 ∧ r.status = .confirmed) ∧
      (confirm (confirm ⟨[⟨7, "u@g.com", "le guin", 0, .pending_confirmation⟩],
          [⟨"tok25", 7⟩]⟩ "tok25" false false).2 "tok25" false false).2 =
        (confirm ⟨[⟨7, "u@g.com", "le guin", 0, .pending_confirmation⟩],
          [⟨"tok25", 7⟩]⟩ "tok25" false false).2) :=
  ⟨by decide, by decide, confirm_idempotent _ _ _ (by decide) (by decide)⟩

/-- Helper: what a successful `insert_subscriber` did — no connectivity
failure, and exactly one pending row appended. -/
theorem insert_subscriber_ok_shape (ns : NewSubscriber) (tx : DbState)
    (sid now : Nat) (f : Bool) (tx' : DbState)
    (h : insert_subscriber ns tx sid now f = .ok tx') :
    f = false ∧
    tx' = { tx with subscriptions := tx.subscriptions ++
      [⟨sid, ns.email.as_ref, ns.name.as_ref, now, .pending_confirmation⟩] } := by
  unfold insert_subscriber at h
  split_ifs at h with h1 h2 h3
  exact ⟨by simpa using h1, (Except.ok.injEq _ _ ).mp h |>.symm⟩

/-- Helper: what a successful `store_token` did — no connectivity
failure, the token was not already present (its primary key held), and
exactly one token row appended. -/
theorem store_token_ok_shape (sid : Nat) (tok : String) (tx : DbState)
    (f : Bool) (tx' : DbState)
    (h : store_token sid tok tx f = .ok tx') :
    f = false ∧
    tx.subscription_tokens.any (fun e => e.subscription_token = tok) = false ∧
    tx' = { tx with subscription_tokens := tx.subscription_tokens ++ [⟨tok, sid⟩] } := by
  unfold store_token at h
  split_ifs at h with h1 h2
  exact ⟨by simpa using h1, by simpa using h2, (Except.ok.injEq _ _).mp h |>.symm⟩

/-- C1: atomicity of the subscribe transaction. For a call that passes
validation and acquires a connection: if the subscriber insert, the
token insert, or the commit fails — from any cause, an injected
connectivity fault or a schema-constraint violation such as a duplicate
email — the whole call returns an `UnexpectedError` tagged with that
persistence stage, the database is exactly what it was (neither a
`subscriptions` row nor a `subscription_tokens` row from this call
survives), and no email is sent. The failure hypothesis is
cause-agnostic: it says the three persistence steps do not all succeed
(whenever both inserts produce committed-to-be states, the commit
fails). -/
theorem subscribe_persistence_failure_atomic
    (graphemeCount : String → Nat) (db : DbState) (email name : String)
    (sid : Nat) (tok : String) (now : Nat) (base : String) (o : SubscribeFaults)
    (hval : ∃ ns, NewSubscriber.try_from graphemeCount name email = .ok ns)
    (hpool : o.poolFails = false)
    (hfail : ∀ ns tx1 tx2, NewSubscriber.try_from graphemeCount name email = .ok ns →
      insert_subscriber ns db sid now o.insertFails = .ok tx1 →
      store_token sid tok tx1 o.storeTokenFails = .ok tx2 →
      o.commitFails = true) :
    ∃ stage, (stage = FailStage.insert ∨ stage = FailStage.storeToken ∨
        stage = FailStage.commit) ∧
      subscribe graphemeCount db email name sid tok now base o =
        ⟨.unexpectedError stage, db, []⟩ := by
  obtain ⟨ns, hns⟩ := hval
  cases hi : insert_subscriber ns db sid now o.insertFails with
  | error u =>
    exact ⟨.insert, Or.inl rfl, by unfold subscribe; rw [hns]; simp [hpool, hi]⟩
  | ok tx1 =>
    cases hs : store_token sid tok tx1 o.storeTokenFails with
    | error u =>
      exact ⟨.storeToken, Or.inr (Or.inl rfl),
        by unfold subscribe; rw [hns]; simp [hpool, hi, hs]⟩
    | ok tx2 =>
      have hc : o.commitFails = true := hfail ns tx1 tx2 hns hi hs
      exact ⟨.commit, Or.inr (Or.inr rfl),
        by unfold subscribe; rw [hns]; simp [hpool, hi, hs, hc]⟩

/-- Witness for C1: a constraint-violation failure with every fault flag
clear — the store already holds a row with the same email, so the
subscriber insert itself fails (duplicate unique key), the call aborts
with the insert-stage error and the store is left exactly as it was. -/
theorem subscribe_persistence_failure_atomic_witness :
    (∃ ns, NewSubscriber.try_from String.length "le guin" "u@g.com" = .ok ns)
    ∧ (⟨false, false, false, false, false⟩ : SubscribeFaults).poolFails = false
    ∧ (∀ ns tx1 tx2, NewSubscriber.try_from String.length "le guin" "u@g.com" = .ok ns →
      insert_subscriber ns ⟨[⟨1, "u@g.com", "x", 0, .pending_confirmation⟩], []⟩ 7 0
        (⟨false, false, false, false, false⟩ : SubscribeFaults).insertFails = .ok tx1 →
      store_token 7 "tok25" tx1
        (⟨false, false, false, false, false⟩ : SubscribeFaults).storeTokenFails = .ok tx2 →
      (⟨false, false, false, false, false⟩ : SubscribeFaults).commitFails = true)
    ∧ ∃ stage, (stage = FailStage.insert ∨ stage = FailStage.storeToken ∨
        stage = FailStage.commit) ∧
      subscribe String.length ⟨[⟨1, "u@g.com", "x", 0, .pending_confirmation⟩], []⟩
          "u@g.com" "le guin" 7 "tok25" 0 "http://b"
          ⟨false, false, false, false, false⟩ =
        ⟨.unexpectedError stage, ⟨[⟨1, "u@g.com", "x", 0, .pending_confirmation⟩], []⟩, []⟩ :=
  ⟨⟨⟨⟨"le guin"⟩, ⟨"u@g.com"⟩⟩, by rfl⟩, rfl,
   by
    intro ns tx1 tx2 hns hi _
    have h1 : (Except.ok ns : Except String NewSubscriber) =
        .ok ⟨⟨"le guin"⟩, ⟨"u@g.com"⟩⟩ := hns.symm.trans (by rfl)
    have h2 : ns = ⟨⟨"le guin"⟩, ⟨"u@g.com"⟩⟩ := Except.ok.inj h1
    subst h2
    rw [show insert_subscriber ⟨⟨"le guin"⟩, ⟨"u@g.com"⟩⟩
        ⟨[⟨1, "u@g.com", "x", 0, .pending_confirmation⟩], []⟩ 7 0 false =
        .error () from rfl] at hi
    exact Except.noConfusion hi,
   subscribe_persistence_failure_atomic String.length
    ⟨[⟨1, "u@g.com", "x", 0, .pending_confirmation⟩], []⟩ "u@g.com" "le guin"
    7 "tok25" 0 "http://b" ⟨false, false, false, false, false⟩
    ⟨⟨⟨"le guin"⟩, ⟨"u@g.com"⟩⟩, by rfl⟩ rfl
    (by
      intro ns tx1 tx2 hns hi _
      have h1 : (Except.ok ns : Except String NewSubscriber) =
          .ok ⟨⟨"le guin"⟩, ⟨"u@g.com"⟩⟩ := hns.symm.trans (by rfl)
      have h2 : ns = ⟨⟨"le guin"⟩, ⟨"u@g.com"⟩⟩ := Except.ok.inj h1
      subst h2
      rw [show insert_subscriber ⟨⟨"le guin"⟩, ⟨"u@g.com"⟩⟩
          ⟨[⟨1, "u@g.com", "x", 0, .pending_confirmation⟩], []⟩ 7 0 false =
          .error () from rfl] at hi
      exact Except.noConfusion hi)⟩

/-- Helper: looking a token up in a table that does not contain it,
extended with a fresh row for it, finds exactly that row. -/
theorem find_token_appended (l : List TokenRow) (tok : String) (sid : Nat)
    (h : l.any (fun e => e.subscription_token = tok) = false) :
    (l ++ [(⟨tok, sid⟩ : TokenRow)]).find? (fun e => e.subscription_token = tok) =
      some ⟨tok, sid⟩ := by
  induction l with
  | nil => simp [List.find?]
  | cons a as ih =>
    simp only [List.any_cons, Bool.or_eq_false_iff] at h
    rw [List.cons_append, List.find?]
    simp only [h.1]
    exact ih h.2

/-- C2: commit-before-send. First conjunct: when validation and every
persistence step succeed but the confirmation-email dispatch fails,
`subscribe` returns the dispatch-stage `UnexpectedError` while the
database keeps the committed subscriber row and token row (nothing is
rolled back). Second conjunct: an email is dispatched only after a
successful commit — any run that attempted a dispatch has the new
subscriber row and token row committed and its commit flag clear. -/
theorem subscribe_send_failure_keeps_committed_state
    (graphemeCount : String → Nat) (db : DbState) (email name : String)
    (sid : Nat) (tok : String) (now : Nat) (base : String) (o : SubscribeFaults) :
    (∀ ns tx1 tx2,
      NewSubscriber.try_from graphemeCount name email = .ok ns →
      o.poolFails = false →
      insert_subscriber ns db sid now o.insertFails = .ok tx1 →
      store_token sid tok tx1 o.storeTokenFails = .ok tx2 →
      o.commitFails = false →
      o.sendEmailFails = true →
      subscribe graphemeCount db email name sid tok now base o =
        ⟨.unexpectedError .sendEmail, tx2, [send_confirmation_email ns base tok]⟩ ∧
      tx2.subscriptions = db.subscriptions ++
        [⟨sid, ns.email.as_ref, ns.name.as_ref, now, .pending_confirmation⟩] ∧
      tx2.subscription_tokens = db.subscription_tokens ++ [⟨tok, sid⟩])
    ∧ ((subscribe graphemeCount db email name sid tok now base o).sent ≠ [] →
      o.commitFails = false ∧ ∃ ns,
        NewSubscriber.try_from graphemeCount name email = .ok ns ∧
        (subscribe graphemeCount db email name sid tok now base o).db.subscriptions =
          db.subscriptions ++
            [⟨sid, ns.email.as_ref, ns.name.as_ref, now, .pending_confirmation⟩] ∧
        (subscribe graphemeCount db email name sid tok now base o).db.subscription_tokens =
          db.subscription_tokens ++ [⟨tok, sid⟩]) := by
  constructor
  · intro ns tx1 tx2 hns hpool hi hs hc hsend
    obtain ⟨_, htx1⟩ := insert_subscriber_ok_shape _ _ _ _ _ _ hi
    obtain ⟨_, _, htx2⟩ := store_token_ok_shape _ _ _ _ _ hs
    refine ⟨?_, ?_, ?_⟩
    · unfold subscribe
      rw [hns]
      simp [hpool, hi, hs, hc, hsend]
    · subst htx2 htx1; simp
    · subst htx2 htx1; simp
  · intro hsent
    cases hv : NewSubscriber.try_from graphemeCount name email with
    | error e =>
      exfalso
      unfold subscribe at hsent
      rw [hv] at hsent
      simp at hsent
    | ok ns =>
      by_cases hp : o.poolFails
      · exfalso
        unfold subscribe at hsent
        rw [hv] at hsent
        simp [hp] at hsent
      cases hi : insert_subscriber ns db sid now o.insertFails with
      | error u =>
        exfalso
        unfold subscribe at hsent
        rw [hv] at hsent
        simp [hp, hi] at hsent
      | ok tx1 =>
        cases hs : store_token sid tok tx1 o.storeTokenFails with
        | error u =>
          exfalso
          unfold subscribe at hsent
          rw [hv] at hsent
          simp [hp, hi, hs] at hsent
        | ok tx2 =>
          by_cases hc : o.commitFails
          · exfalso
            unfold subscribe at hsent
            rw [hv] at hsent
            simp [hp, hi, hs, hc] at hsent
          · obtain ⟨_, htx1⟩ := insert_subscriber_ok_shape _ _ _ _ _ _ hi
            obtain ⟨_, _, htx2⟩ := store_token_ok_shape _ _ _ _ _ hs
            have hdb : (subscribe graphemeCount db email name sid tok now base o).db = tx2 := by
              unfold subscribe
              rw [hv]
              by_cases hse : o.sendEmailFails <;> simp [hp, hi, hs, hc, hse]
            refine ⟨by simpa using hc, ns, rfl, ?_, ?_⟩
            · rw [hdb]; subst htx2 htx1; simp
            · rw [hdb]; subst htx2 htx1; simp

/-- Witness for C2: a concrete run with every store step healthy and the
dispatcher down. -/
theorem subscribe_send_failure_keeps_committed_state_witness :
    (NewSubscriber.try_from String.length "le guin" "u@g.com" =
        .ok ⟨⟨"le guin"⟩, ⟨"u@g.com"⟩⟩ ∧
      (⟨false, false, false, false, true⟩ : SubscribeFaults).poolFails = false ∧
      insert_subscriber ⟨⟨"le guin"⟩, ⟨"u@g.com"⟩⟩ ⟨[], []⟩ 7 0
          (⟨false, false, false, false, true⟩ : SubscribeFaults).insertFails =
        .ok ⟨[⟨7, "u@g.com", "le guin", 0, .pending_confirmation⟩], []⟩ ∧
      store_token 7 "tok25" ⟨[⟨7, "u@g.com", "le guin", 0, .pending_confirmation⟩], []⟩
          (⟨false, false, false, false, true⟩ : SubscribeFaults).storeTokenFails =
        .ok ⟨[⟨7, "u@g.com", "le guin", 0, .pending_confirmation⟩], [⟨"tok25", 7⟩]⟩ ∧
      subscribe String.length ⟨[], []⟩ "u@g.com" "le guin" 7 "tok25" 0 "http://b"
          ⟨false, false, false, false, true⟩ =
        ⟨.unexpectedError .sendEmail,
          ⟨[⟨7, "u@g.com", "le guin", 0, .pending_confirmation⟩], [⟨"tok25", 7⟩]⟩,
          [send_confirmation_email ⟨⟨"le guin"⟩, ⟨"u@g.com"⟩⟩ "http://b" "tok25"]⟩)
    ∧ ((subscribe String.length ⟨[], []⟩ "u@g.com" "le guin" 7 "tok25" 0 "http://b"
          ⟨false, false, false, false, true⟩).sent ≠ [] →
      (⟨false, false, false, false, true⟩ : SubscribeFaults).commitFails = false ∧
      ∃ ns, NewSubscriber.try_from String.length "le guin" "u@g.com" = .ok ns ∧
        (subscribe String.length ⟨[], []⟩ "u@g.com" "le guin" 7 "tok25" 0 "http://b"
            ⟨false, false, false, false, true⟩).db.subscriptions =
          ([] : List SubscriberRow) ++
            [⟨7, ns.email.as_ref, ns.name.as_ref, 0, .pending_confirmation⟩] ∧
        (subscribe String.length ⟨[], []⟩ "u@g.com" "le guin" 7 "tok25" 0 "http://b"
            ⟨false, false, false, false, true⟩).db.subscription_tokens =
          ([] : List TokenRow) ++ [⟨"tok25", 7⟩]) :=
  ⟨⟨by rfl, rfl, by rfl, by rfl,
    ((subscribe_send_failure_keeps_committed_state String.length ⟨[], []⟩ "u@g.com"
        "le guin" 7 "tok25" 0 "http://b" ⟨false, false, false, false, true⟩).1
      ⟨⟨"le guin"⟩, ⟨"u@g.com"⟩⟩
      ⟨[⟨7, "u@g.com", "le guin", 0, .pending_confirmation⟩], []⟩
      ⟨[⟨7, "u@g.com", "le guin", 0, .pending_confirmation⟩], [⟨"tok25", 7⟩]⟩
      (by rfl) rfl (by rfl) (by rfl) rfl rfl).1⟩,
   (subscribe_send_failure_keeps_committed_state String.length ⟨[], []⟩ "u@g.com"
      "le guin" 7 "tok25" 0 "http://b" ⟨false, false, false, false, true⟩).2⟩

/-- C10: for every successful `subscribe` run, the single dispatched
confirmation email embeds, in both bodies, the link
`{base_url}/subscriptions/confirm?subscription_token={token}` built
from exactly the token string the transaction stored, and `confirm`'s
token query on the resulting database resolves that token to the new
subscriber's id. -/
theorem subscribe_token_link_roundtrip
    (graphemeCount : String → Nat) (db : DbState) (email name : String)
    (sid : Nat) (tok : String) (now : Nat) (base : String) (o : SubscribeFaults)
    (h : (subscribe graphemeCount db email name sid tok now base o).outcome = .ok) :
    ∃ ns, NewSubscriber.try_from graphemeCount name email = .ok ns ∧
      (subscribe graphemeCount db email name sid tok now base o).sent =
        [⟨ns.email.as_ref, "Welcome!",
          confirmationHtmlBody (confirmationLink base tok),
          confirmationPlainBody (confirmationLink base tok)⟩] ∧
      get_subscriber_id_from_token tok
        (subscribe graphemeCount db email name sid tok now base o).db = some sid := by
  cases hv : NewSubscriber.try_from graphemeCount name email with
  | error e =>
    exfalso
    unfold subscribe at h
    rw [hv] at h
    simp at h
  | ok ns =>
    by_cases hp : o.poolFails
    · exfalso
      unfold subscribe at h
      rw [hv] at h
      simp [hp] at h
    cases hi : insert_subscriber ns db sid now o.insertFails with
    | error u =>
      exfalso
      unfold subscribe at h
      rw [hv] at h
      simp [hp, hi] at h
    | ok tx1 =>
      cases hs : store_token sid tok tx1 o.storeTokenFails with
      | error u =>
        exfalso
        unfold subscribe at h
        rw [hv] at h
        simp [hp, hi, hs] at h
      | ok tx2 =>
        by_cases hc : o.commitFails
        · exfalso
          unfold subscribe at h
          rw [hv] at h
          simp [hp, hi, hs, hc] at h
        by_cases hse : o.sendEmailFails
        · exfalso
          unfold subscribe at h
          rw [hv] at h
          simp [hp, hi, hs, hc, hse] at h
        have hrun : subscribe graphemeCount db email name sid tok now base o =
            ⟨.ok, tx2, [send_confirmation_email ns base tok]⟩ := by
          unfold subscribe
          rw [hv]
          simp [hp, hi, hs, hc, hse]
        obtain ⟨_, htx1⟩ := insert_subscriber_ok_shape _ _ _ _ _ _ hi
        obtain ⟨_, hnone, htx2⟩ := store_token_ok_shape _ _ _ _ _ hs
        refine ⟨ns, rfl, by rw [hrun]; rfl, ?_⟩
        rw [hrun]
        unfold get_subscriber_id_from_token
        subst htx2
        simp only
        rw [find_token_appended _ _ _ hnone]
        rfl

/-- Witness for C10: the successful run against an empty store. -/
theorem subscribe_token_link_roundtrip_witness :
    (subscribe String.length ⟨[], []⟩ "u@g.com" "le guin" 7 "tok25" 0 "http://b"
        ⟨false, false, false, false, false⟩).outcome = .ok
    ∧ ∃ ns, NewSubscriber.try_from String.length "le guin" "u@g.com" = .ok ns ∧
      (subscribe String.length ⟨[], []⟩ "u@g.com" "le guin" 7 "tok25" 0 "http://b"
          ⟨false, false, false, false, false⟩).sent =
        [⟨ns.email.as_ref, "Welcome!",
          confirmationHtmlBody (confirmationLink "http://b" "tok25"),
          confirmationPlainBody (confirmationLink "http://b" "tok25")⟩] ∧
      get_subscriber_id_from_token "tok25"
        (subscribe String.length ⟨[], []⟩ "u@g.com" "le guin" 7 "tok25" 0 "http://b"
          ⟨false, false, false, false, false⟩).db = some 7 :=
  ⟨by rfl, subscribe_token_link_roundtrip String.length ⟨[], []⟩ "u@g.com" "le guin"
    7 "tok25" 0 "http://b" ⟨false, false, false, false, false⟩ (by rfl)⟩

/-- The `send_email` calls a list of fetched subscriber rows gives rise
to when every dispatch succeeds: one per validly-parsed entry, in
order; invalid entries contribute nothing. -/
def okSends (title html text : String)
    (xs : List (Except String SubscriberEmail)) : List SentEmail :=
  (xs.filterMap Except.toOption).map (fun e => ⟨e.as_ref, title, html, text⟩)

/-- Helper: the dispatch loop walks past a prefix whose valid recipients
all dispatch successfully, accumulating exactly their sends. -/
theorem publishLoop_ok_front (dispatchOk : String → Bool) (title html text : String)
    (pre : List (Except String SubscriberEmail)) :
    ∀ (ys : List (Except String SubscriberEmail)) (sent : List SentEmail),
    (∀ e, .ok e ∈ pre → dispatchOk e.as_ref = true) →
    publishLoop dispatchOk title html text (pre ++ ys) sent =
      publishLoop dispatchOk title html text ys (sent ++ okSends title html text pre) := by
  induction pre with
  | nil =>
    intro ys sent _
    simp [okSends]
  | cons x xs ih =>
    intro ys sent h
    cases x with
    | ok e =>
      have hd : dispatchOk e.as_ref = true := h e (by simp)
      rw [List.cons_append]
      rw [publishLoop]
      simp only [hd, if_true]
      rw [ih ys _ (fun e' he' => h e' (by simp [he']))]
      congr 1
      simp [okSends, List.filterMap_cons, Except.toOption]
    | error msg =>
      rw [List.cons_append]
      rw [publishLoop]
      rw [ih ys _ (fun e' he' => h e' (by simp [he']))]
      congr 1

/-- C6: the broadcast stops at the first dispatch failure. If the
fetched confirmed-subscriber list splits as `pre ++ ok em :: post`
where every valid recipient in `pre` dispatches fine and dispatch to
`em` fails, `publish_newsletter` returns the `UnexpectedError` wrapping
that recipient's failure, and the attempted sends are exactly `pre`'s
plus the one failing attempt — nothing in `post` is attempted. -/
theorem publish_stops_at_first_dispatch_failure
    (db : DbState) (title html text : String) (dispatchOk : String → Bool)
    (pre post : List (Except String SubscriberEmail)) (em : SubscriberEmail)
    (hshape : get_confirmed_subscribers db = pre ++ .ok em :: post)
    (hpre : ∀ e, .ok e ∈ pre → dispatchOk e.as_ref = true)
    (hfail : dispatchOk em.as_ref = false) :
    publish_newsletter db title html text false dispatchOk =
      (.unexpectedError ("Failed to send newsletter issue to " ++ em.as_ref),
        okSends title html text pre ++ [⟨em.as_ref, title, html, text⟩]) := by
  unfold publish_newsletter
  rw [hshape]
  simp only [Bool.false_eq_true, if_false]
  rw [publishLoop_ok_front dispatchOk title html text pre _ _ hpre]
  rw [publishLoop]
  simp [hfail]

/-- Witness for C6: four confirmed rows — a malformed one (skipped), a
deliverable one, the failing one, and one after it that is never
attempted. -/
theorem publish_stops_at_first_dispatch_failure_witness :
    (get_confirmed_subscribers
        ⟨[⟨1, "bad-email", "a", 0, .confirmed⟩, ⟨2, "u@g.com", "b", 0, .confirmed⟩,
          ⟨3, "v@g.com", "c", 0, .confirmed⟩, ⟨4, "w@g.com", "d", 0, .confirmed⟩], []⟩ =
      [.error ("bad-email is not a valid subscriber email"), .ok ⟨"u@g.com"⟩] ++
        .ok ⟨"v@g.com"⟩ :: [.ok ⟨"w@g.com"⟩])
    ∧ (∀ e, .ok e ∈ [Except.error ("bad-email is not a valid subscriber email"),
          Except.ok (⟨"u@g.com"⟩ : SubscriberEmail)] →
        (fun s => !(s == "v@g.com")) e.as_ref = true)
    ∧ ((fun s => !(s == "v@g.com")) (⟨"v@g.com"⟩ : SubscriberEmail).as_ref = false)
    ∧ publish_newsletter
        ⟨[⟨1, "bad-email", "a", 0, .confirmed⟩, ⟨2, "u@g.com", "b", 0, .confirmed⟩,
          ⟨3, "v@g.com", "c", 0, .confirmed⟩, ⟨4, "w@g.com", "d", 0, .confirmed⟩], []⟩
        "T" "H" "X" false (fun s => !(s == "v@g.com")) =
      (.unexpectedError ("Failed to send newsletter issue to " ++
          (⟨"v@g.com"⟩ : SubscriberEmail).as_ref),
        okSends "T" "H" "X" [.error ("bad-email is not a valid subscriber email"),
          .ok ⟨"u@g.com"⟩] ++ [⟨(⟨"v@g.com"⟩ : SubscriberEmail).as_ref, "T", "H", "X"⟩]) :=
  ⟨by rfl,
   by
    intro e he
    simp only [List.mem_cons, List.not_mem_nil, or_false, reduceCtorEq, false_or] at he
    rw [Except.ok.injEq] at he
    subst he
    rfl,
   by rfl,
   publish_stops_at_first_dispatch_failure _ "T" "H" "X" _ _ _ _ (by rfl)
    (by
      intro e he
      simp only [List.mem_cons, List.not_mem_nil, or_false, reduceCtorEq, false_or] at he
      rw [Except.ok.injEq] at he
      subst he
      rfl)
    (by rfl)⟩

/-- C7: when the transport accepts every validly-parsed confirmed
recipient, the broadcast succeeds; each stored email that fails
re-validation is skipped with no dispatch attempt and does not abort
the batch, and each validly-parsed stored email gets exactly one
dispatch call (the attempt list is exactly one send per valid entry,
in order). -/
theorem publish_skips_invalid_sends_each_valid_once
    (db : DbState) (title html text : String) (dispatchOk : String → Bool)
    (hok : ∀ e, .ok e ∈ get_confirmed_subscribers db → dispatchOk e.as_ref = true) :
    publish_newsletter db title html text false dispatchOk =
      (.ok, okSends title html text (get_confirmed_subscribers db)) := by
  unfold publish_newsletter
  simp only [Bool.false_eq_true, if_false]
  have h := publishLoop_ok_front dispatchOk title html text
    (get_confirmed_subscribers db) [] [] hok
  rw [List.append_nil] at h
  rw [h]
  rw [publishLoop]
  simp

/-- Witness for C7: one malformed stored email and one valid one — the
malformed one is skipped, the valid one is dispatched exactly once, the
broadcast succeeds. -/
theorem publish_skips_invalid_sends_each_valid_once_witness :
    (∀ e, .ok e ∈ get_confirmed_subscribers
        ⟨[⟨1, "bad-email", "a", 0, .confirmed⟩, ⟨2, "u@g.com", "b", 0, .confirmed⟩], []⟩ →
      (fun _ => true) e.as_ref = true)
    ∧ publish_newsletter
        ⟨[⟨1, "bad-email", "a", 0, .confirmed⟩, ⟨2, "u@g.com", "b", 0, .confirmed⟩], []⟩
        "T" "H" "X" false (fun _ => true) =
      (.ok, okSends "T" "H" "X" (get_confirmed_subscribers
        ⟨[⟨1, "bad-email", "a", 0, .confirmed⟩, ⟨2, "u@g.com", "b", 0, .confirmed⟩], []⟩))
    ∧ okSends "T" "H" "X" (get_confirmed_subscribers
        ⟨[⟨1, "bad-email", "a", 0, .confirmed⟩, ⟨2, "u@g.com", "b", 0, .confirmed⟩], []⟩) =
      [⟨"u@g.com", "T", "H", "X"⟩] :=
  ⟨fun _ _ => rfl,
   publish_skips_invalid_sends_each_valid_once _ "T" "H" "X" _ (fun _ _ => rfl),
   by rfl⟩

/-- Helper: a `subscribe` run either leaves the `subscriptions` table
untouched (any aborted path) or appends exactly one row, created with
status `pending_confirmation`. -/
theorem subscribe_subscriptions_shape
    (graphemeCount : String → Nat) (db : DbState) (email name : String)
    (sid : Nat) (tok : String) (now : Nat) (base : String) (o : SubscribeFaults) :
    (subscribe graphemeCount db email name sid tok now base o).db.subscriptions =
      db.subscriptions ∨
    ∃ row : SubscriberRow, row.status = .pending_confirmation ∧
      (subscribe graphemeCount db email name sid tok now base o).db.subscriptions =
        db.subscriptions ++ [row] := by
  cases hv : NewSubscriber.try_from graphemeCount name email with
  | error e =>
    left
    unfold subscribe
    rw [hv]
  | ok ns =>
    by_cases hp : o.poolFails
    · left
      unfold subscribe
      rw [hv]
      simp [hp]
    cases hi : insert_subscriber ns db sid now o.insertFails with
    | error u =>
      left
      unfold subscribe
      rw [hv]
      simp [hp, hi]
    | ok tx1 =>
      cases hs : store_token sid tok tx1 o.storeTokenFails with
      | error u =>
        left
        unfold subscribe
        rw [hv]
        simp [hp, hi, hs]
      | ok tx2 =>
        by_cases hc : o.commitFails
        · left
          unfold subscribe
          rw [hv]
          simp [hp, hi, hs, hc]
        · right
          obtain ⟨_, htx1⟩ := insert_subscriber_ok_shape _ _ _ _ _ _ hi
          obtain ⟨_, _, htx2⟩ := store_token_ok_shape _ _ _ _ _ hs
          refine ⟨⟨sid, ns.email.as_ref, ns.name.as_ref, now, .pending_confirmation⟩,
            rfl, ?_⟩
          have hdb : (subscribe graphemeCount db email name sid tok now base o).db = tx2 := by
            unfold subscribe
            rw [hv]
            by_cases hse : o.sendEmailFails <;> simp [hp, hi, hs, hc, hse]
          rw [hdb]
          subst htx2 htx1
          simp

/-- Helper: a `confirm` run either leaves the `subscriptions` table
untouched or applies exactly the `confirm_subscriber` UPDATE for some
subscriber id. -/
theorem confirm_subscriptions_shape (db : DbState) (tok : String)
    (lookupFails updateFails : Bool) :
    (confirm db tok lookupFails updateFails).2.subscriptions = db.subscriptions ∨
    ∃ sid, (confirm db tok lookupFails updateFails).2.subscriptions =
      db.subscriptions.map (fun r =>
        if r.id = sid then { r with status := .confirmed } else r) := by
  unfold confirm
  by_cases hl : lookupFails
  · left
    simp [hl]
  cases hg : get_subscriber_id_from_token tok db with
  | none =>
    left
    simp [hl, hg]
  | some sid =>
    by_cases hu : updateFails
    · left
      simp [hl, hg, hu]
    · right
      refine ⟨sid, ?_⟩
      simp [hl, hg, hu, confirm_subscriber]

/-- C9: the subscriber-record state machine. Across any single core
operation (a `subscribe`, a `confirm`, or a `publish_newsletter`, with
arbitrary inputs and fault injection): every existing record survives
with its id, email and name intact and its status either unchanged or
moved from `pending_confirmation` to `confirmed` (never back, and never
deleted); and every record of the new state either descends from an
existing one that way or was freshly created with status
`pending_confirmation`. Since `SubStatus` has exactly the two values,
every reachable record's status is one of the two. -/
theorem subscriber_state_machine (s s' : DbState) (h : Step s s') :
    (∀ r ∈ s.subscriptions, ∃ r' ∈ s'.subscriptions,
      r'.id = r.id ∧ r'.email = r.email ∧ r'.name = r.name ∧
      (r'.status = r.status ∨
        (r.status = .pending_confirmation ∧ r'.status = .confirmed)))
    ∧ (∀ r' ∈ s'.subscriptions,
      (∃ r ∈ s.subscriptions, r.id = r'.id ∧ r.email = r'.email ∧ r.name = r'.name ∧
        (r'.status = r.status ∨
          (r.status = .pending_confirmation ∧ r'.status = .confirmed)))
      ∨ r'.status = .pending_confirmation) := by
  cases h with
  | subscribe graphemeCount db email name sid tok now base o =>
    rcases subscribe_subscriptions_shape graphemeCount s email name sid tok now base o
      with hs | ⟨row, hrow, hs⟩
    · rw [hs]
      constructor
      · intro r hr
        exact ⟨r, hr, rfl, rfl, rfl, Or.inl rfl⟩
      · intro r' hr'
        exact Or.inl ⟨r', hr', rfl, rfl, rfl, Or.inl rfl⟩
    · rw [hs]
      constructor
      · intro r hr
        exact ⟨r, List.mem_append_left _ hr, rfl, rfl, rfl, Or.inl rfl⟩
      · intro r' hr'
        rcases List.mem_append.mp hr' with hin | hnew
        · exact Or.inl ⟨r', hin, rfl, rfl, rfl, Or.inl rfl⟩
        · right
          rw [List.mem_singleton.mp hnew]
          exact hrow
  | confirm db tok lookupFails updateFails =>
    rcases confirm_subscriptions_shape s tok lookupFails updateFails
      with hs | ⟨sid, hs⟩
    · rw [hs]
      constructor
      · intro r hr
        exact ⟨r, hr, rfl, rfl, rfl, Or.inl rfl⟩
      · intro r' hr'
        exact Or.inl ⟨r', hr', rfl, rfl, rfl, Or.inl rfl⟩
    · rw [hs]
      constructor
      · intro r hr
        refine ⟨if r.id = sid then { r with status := .confirmed } else r,
          List.mem_map_of_mem _ hr, ?_⟩
        by_cases hid : r.id = sid
        · cases hst : r.status with
          | pending_confirmation => simp [hid, hst]
          | confirmed => simp [hid, hst]
        · simp [hid]
      · intro r' hr'
        obtain ⟨a, ha, hae⟩ := List.mem_map.mp hr'
        left
        refine ⟨a, ha, ?_⟩
        subst hae
        by_cases hid : a.id = sid
        · cases hst : a.status with
          | pending_confirmation => simp [hid, hst]
          | confirmed => simp [hid, hst]
        · simp [hid]
  | publish_newsletter db =>
    constructor
    · intro r hr
      exact ⟨r, hr, rfl, rfl, rfl, Or.inl rfl⟩
    · intro r' hr'
      exact Or.inl ⟨r', hr', rfl, rfl, rfl, Or.inl rfl⟩

/-- Witness for C9: the theorem applied to a concrete `confirm` step
that flips one pending subscriber to confirmed. -/
theorem subscriber_state_machine_witness :
    Step ⟨[⟨7, "u@g.com", "le guin", 0, .pending_confirmation⟩], [⟨"tok25", 7⟩]⟩
      (confirm ⟨[⟨7, "u@g.com", "le guin", 0, .pending_confirmation⟩], [⟨"tok25", 7⟩]⟩
        "tok25" false false).2
    ∧ ((∀ r ∈ (⟨[⟨7, "u@g.com", "le guin", 0, .pending_confirmation⟩], [⟨"tok25", 7⟩]⟩ :
          DbState).subscriptions,
        ∃ r' ∈ (confirm ⟨[⟨7, "u@g.com", "le guin", 0, .pending_confirmation⟩],
            [⟨"tok25", 7⟩]⟩ "tok25" false false).2.subscriptions,
          r'.id = r.id ∧ r'.email = r.email ∧ r'.name = r.name ∧
          (r'.status = r.status ∨
            (r.status = .pending_confirmation ∧ r'.status = .confirmed)))
      ∧ (∀ r' ∈ (confirm ⟨[⟨7, "u@g.com", "le guin", 0, .pending_confirmation⟩],
            [⟨"tok25", 7⟩]⟩ "tok25" false false).2.subscriptions,
        (∃ r ∈ (⟨[⟨7, "u@g.com", "le guin", 0, .pending_confirmation⟩], [⟨"tok25", 7⟩]⟩ :
            DbState).subscriptions,
          r.id = r'.id ∧ r.email = r'.email ∧ r.name = r'.name ∧
          (r'.status = r.status ∨
            (r.status = .pending_confirmation ∧ r'.status = .confirmed)))
        ∨ r'.status = .pending_confirmation)) :=
  ⟨Step.confirm ⟨[⟨7, "u@g.com", "le guin", 0, .pending_confirmation⟩], [⟨"tok25", 7⟩]⟩
      "tok25" false false,
   subscriber_state_machine _ _
    (Step.confirm ⟨[⟨7, "u@g.com", "le guin", 0, .pending_confirmation⟩], [⟨"tok25", 7⟩]⟩
      "tok25" false false)⟩

end Z2P
